import Mathlib

/-!
Shallow embedding of `custom_components/toon_climate/climate.py`
(Toon thermostat climate entity for Home Assistant).

Python floats are modelled as exact rationals (`ℚ`), Python ints as `ℤ`.
The result of `do_api_request` (a JSON mapping, or `None` on connection
error / timeout / caught parse error) is passed to each operation as an
explicit `Option JObj` parameter; the operations return the new entity
state together with the device request issued (if any) or the Python
exception raised (if any).
-/

namespace ToonClimate

/-- Home Assistant climate constant `PRESET_AWAY`. -/
def PRESET_AWAY : String := "away"

/-- Home Assistant climate constant `PRESET_COMFORT`. -/
def PRESET_COMFORT : String := "comfort"

/-- Home Assistant climate constant `PRESET_ECO`. -/
def PRESET_ECO : String := "eco"

/-- Home Assistant climate constant `PRESET_HOME`. -/
def PRESET_HOME : String := "home"

/-- Home Assistant climate constant `PRESET_SLEEP`. -/
def PRESET_SLEEP : String := "sleep"

/-- Home Assistant climate constant `HVAC_MODE_HEAT`. -/
def HVAC_MODE_HEAT : String := "heat"

/-- Home Assistant climate constant `HVAC_MODE_AUTO`. -/
def HVAC_MODE_AUTO : String := "auto"

/-- Home Assistant climate constant `HVAC_MODE_OFF`. -/
def HVAC_MODE_OFF : String := "off"

/-- `SUPPORT_PRESETS = [PRESET_AWAY, PRESET_HOME, PRESET_COMFORT, PRESET_SLEEP, PRESET_ECO]`. -/
def SUPPORT_PRESETS : List String :=
  [PRESET_AWAY, PRESET_HOME, PRESET_COMFORT, PRESET_SLEEP, PRESET_ECO]

/-- `SUPPORT_MODES = [HVAC_MODE_HEAT, HVAC_MODE_AUTO]`. -/
def SUPPORT_MODES : List String := [HVAC_MODE_HEAT, HVAC_MODE_AUTO]

/-- `DEFAULT_MIN_TEMP = 6.0`. -/
def DEFAULT_MIN_TEMP : ℚ := 6

/-- `DEFAULT_MAX_TEMP = 30.0`. -/
def DEFAULT_MAX_TEMP : ℚ := 30

/-- Python `int()` applied to a float: truncation toward zero. -/
def pyTrunc (q : ℚ) : ℤ := if 0 ≤ q then ⌊q⌋ else ⌈q⌉

/-- Python `str.lower()`, mapping each character to lower case (the
preset names involved are ASCII, where this agrees with Python). -/
def pyLower (s : String) : String := String.mk (s.data.map Char.toLower)

/-- A JSON value as seen by the decoding code: either a number (on which
Python `int()` succeeds, truncating), or any other value (`null`, string,
object, ...) on which `int()` raises `TypeError`/`ValueError`. -/
inductive JVal where
  | num (q : ℚ)
  | other
deriving DecidableEq

/-- A JSON object: an association list of fields. -/
abbrev JObj := List (String × JVal)

/-- Python `int(x)` on a JSON value: truncates numbers, raises otherwise. -/
def pyInt : JVal → Except String ℤ
  | .num q => .ok (pyTrunc q)
  | .other => .error "TypeError: int() argument"

/-- `int(data[k])`: `KeyError` when the field is missing, then `pyInt`. -/
def jInt (o : JObj) (k : String) : Except String ℤ :=
  match o.find? (fun kv => kv.1 == k) with
  | none => .error ("KeyError: " ++ k)
  | some kv => pyInt kv.2

/-- Python truthiness of `self._data`: `None` and the empty dict are falsy. -/
def truthy : Option JObj → Bool
  | none => false
  | some o => !o.isEmpty

/-- The mutable fields of `ThermostatDevice` (all initialised to `None`). -/
structure ThermostatState where
  data : Option JObj
  active_state : Option ℤ
  burner_info : Option ℤ
  modulation_level : Option ℤ
  current_setpoint : Option ℚ
  current_temperature : Option ℚ
  ot_comm_error : Option ℤ
  program_state : Option ℤ
  hvac_mode : Option String
deriving DecidableEq

/-- The state after `ThermostatDevice.__init__`: every field is `None`. -/
def initState : ThermostatState :=
  ⟨none, none, none, none, none, none, none, none, none⟩

/-- `self._min_temp`: the configured value if it is `>= DEFAULT_MIN_TEMP`,
else `DEFAULT_MIN_TEMP`. -/
def effective_min_temp (c : ℚ) : ℚ :=
  if c ≥ DEFAULT_MIN_TEMP then c else DEFAULT_MIN_TEMP

/-- `self._max_temp`: the configured value if it is `<= DEFAULT_MAX_TEMP`,
else `DEFAULT_MAX_TEMP`. -/
def effective_max_temp (c : ℚ) : ℚ :=
  if c ≤ DEFAULT_MAX_TEMP then c else DEFAULT_MAX_TEMP

/-- `self._valid_presets`, built conditionally from `SUPPORT_PRESETS`
with keys 0..4 (comfort, home, sleep, away, eco). -/
def valid_presets : List (ℤ × String) :=
  (if PRESET_COMFORT ∈ SUPPORT_PRESETS then [((0 : ℤ), PRESET_COMFORT)] else []) ++
  (if PRESET_HOME ∈ SUPPORT_PRESETS then [((1 : ℤ), PRESET_HOME)] else []) ++
  (if PRESET_SLEEP ∈ SUPPORT_PRESETS then [((2 : ℤ), PRESET_SLEEP)] else []) ++
  (if PRESET_AWAY ∈ SUPPORT_PRESETS then [((3 : ℤ), PRESET_AWAY)] else []) ++
  (if PRESET_ECO ∈ SUPPORT_PRESETS then [((4 : ℤ), PRESET_ECO)] else [])

/-- The `preset_mode` property: `self._valid_presets[self._active_state]`,
with `KeyError` (including the initial `None` state) mapped to `None`. -/
def preset_mode (s : ThermostatState) : Option String :=
  match s.active_state with
  | none => none
  | some a =>
    match valid_presets.find? (fun kv => kv.1 == a) with
    | some kv => some kv.2
    | none => none

/-- A device request: the `action` query parameter plus the remaining
integer-valued query parameters, in the order they appear in the URL. -/
structure Request where
  action : String
  params : List (String × ℤ)
deriving DecidableEq

/-- Decoding of a hundredths-of-degree integer back to degrees Celsius,
as `async_update` does for `currentSetpoint` and `currentTemp`
(`int(self._data["currentSetpoint"]) / 100`). -/
def decodeTemp (n : ℤ) : ℚ := (n : ℚ) / 100

/-- `ThermostatDevice.async_update`: stores the poll response in
`self._data`; when it is truthy, decodes the eight fields in source order
(each assignment lands before the next conversion can raise) and derives
`self._hvac_mode`. The second component is the Python exception raised
(`KeyError`/`TypeError`/`ValueError` escape the method), or `none`. -/
def async_update (s0 : ThermostatState) (resp : Option JObj) :
    ThermostatState × Option String :=
  let s := { s0 with data := resp }
  match resp, truthy resp with
  | some o, true =>
    match jInt o "activeState" with
    | .error e => (s, some e)
    | .ok a =>
    let s := { s with active_state := some a }
    match jInt o "burnerInfo" with
    | .error e => (s, some e)
    | .ok b =>
    let s := { s with burner_info := some b }
    match jInt o "currentModulationLevel" with
    | .error e => (s, some e)
    | .ok m =>
    let s := { s with modulation_level := some m }
    match jInt o "currentSetpoint" with
    | .error e => (s, some e)
    | .ok sp =>
    let s := { s with current_setpoint := some (decodeTemp sp) }
    match jInt o "currentTemp" with
    | .error e => (s, some e)
    | .ok ct =>
    let s := { s with current_temperature := some (decodeTemp ct) }
    match jInt o "otCommError" with
    | .error e => (s, some e)
    | .ok ot =>
    let s := { s with ot_comm_error := some ot }
    match jInt o "programState" with
    | .error e => (s, some e)
    | .ok p =>
    let s := { s with program_state := some p }
    let s := { s with hvac_mode :=
      if a = 4 then some HVAC_MODE_OFF
      else if p = 0 then some HVAC_MODE_HEAT
      else if p = 1 ∨ p = 2 then some HVAC_MODE_AUTO
      else none }
    (s, none)
  | _, _ => (s, none)

/-- `ThermostatDevice.async_set_temperature`: `None` temperature returns
immediately; `value = int(t * 100)`; out-of-range temperatures return with
no request; otherwise the `setSetpoint` request is issued, `self._data`
takes the (possibly `None`) response, and `self._current_setpoint` is set
to the requested temperature unconditionally. -/
def async_set_temperature (s : ThermostatState) (minT maxT : ℚ)
    (temp : Option ℚ) (resp : Option JObj) : ThermostatState × Option Request :=
  match temp with
  | none => (s, none)
  | some t =>
    let value := pyTrunc (t * 100)
    if t < minT ∨ t > maxT then (s, none)
    else ({ s with data := resp, current_setpoint := some t },
          some ⟨"setSetpoint", [("Setpoint", value)]⟩)

/-- `ThermostatDevice.async_set_preset_mode`: rejects any preset whose
lowercased form is not in `SUPPORT_PRESETS`; otherwise selects the
`(scheme_temp, scheme_state)` pair from the lowercased name and issues
`changeSchemeState` with `state` and `temperatureState`. -/
def async_set_preset_mode (s : ThermostatState) (preset : String)
    (resp : Option JObj) : ThermostatState × Option Request :=
  if ¬ ((pyLower preset) ∈ SUPPORT_PRESETS) then (s, none)
  else
    let p : ℤ × ℤ :=
      if (pyLower preset) = PRESET_COMFORT then (0, 2)
      else if (pyLower preset) = PRESET_HOME then (1, 2)
      else if (pyLower preset) = PRESET_SLEEP then (2, 2)
      else if (pyLower preset) = PRESET_AWAY then (3, 2)
      else if (pyLower preset) = PRESET_ECO then (4, 8)
      else (-1, 2)
    ({ s with data := resp },
     some ⟨"changeSchemeState", [("state", p.2), ("temperatureState", p.1)]⟩)

/-- `ThermostatDevice.async_set_hvac_mode`, with the supported-modes list
as a parameter (the source checks membership in the module constant
`SUPPORT_MODES`): rejects modes not in the list, then branches on
heat-while-vacation, heat, auto, off, falling through otherwise. -/
def async_set_hvac_mode_with (modes : List String) (s : ThermostatState)
    (mode : String) (resp : Option JObj) : ThermostatState × Option Request :=
  if ¬ (mode ∈ modes) then (s, none)
  else if mode = HVAC_MODE_HEAT ∧ s.active_state = some 4 then
    ({ s with data := resp },
     some ⟨"changeSchemeState", [("state", 0), ("temperatureState", 1)]⟩)
  else if mode = HVAC_MODE_HEAT then
    ({ s with data := resp }, some ⟨"changeSchemeState", [("state", 0)]⟩)
  else if mode = HVAC_MODE_AUTO then
    ({ s with data := resp }, some ⟨"changeSchemeState", [("state", 1)]⟩)
  else if mode = HVAC_MODE_OFF then
    ({ s with data := resp },
     some ⟨"changeSchemeState", [("state", 8), ("temperatureState", 4)]⟩)
  else (s, none)

/-- `ThermostatDevice.async_set_hvac_mode` as shipped: membership is
checked against the module constant `SUPPORT_MODES`. -/
def async_set_hvac_mode (s : ThermostatState) (mode : String)
    (resp : Option JObj) : ThermostatState × Option Request :=
  async_set_hvac_mode_with SUPPORT_MODES s mode resp

/-- The `(scheme_temp, scheme_state)` table applied to an (already
lowercased) preset name, as written in the setter's `if`/`elif` chain. -/
def presetPair (q : String) : ℤ × ℤ :=
  if q = PRESET_COMFORT then (0, 2)
  else if q = PRESET_HOME then (1, 2)
  else if q = PRESET_SLEEP then (2, 2)
  else if q = PRESET_AWAY then (3, 2)
  else if q = PRESET_ECO then (4, 8)
  else (-1, 2)

/-- The `changeSchemeState` request encoded from a lowercased preset name. -/
def presetRequest (q : String) : Request :=
  ⟨"changeSchemeState", [("state", (presetPair q).2), ("temperatureState", (presetPair q).1)]⟩

/-- A concrete decoded prior state used to instantiate the theorems:
target temperature 15 °C, preset home, program mode on. -/
def sPrior : ThermostatState :=
  { data := none, active_state := some 1, burner_info := some 0,
    modulation_level := some 0, current_setpoint := some 15,
    current_temperature := some 15, ot_comm_error := some 0,
    program_state := some 1, hvac_mode := some HVAC_MODE_AUTO }

/-- A concrete decoded state currently in vacation mode (`activeState == 4`). -/
def sVacation : ThermostatState := { sPrior with active_state := some 4 }

/-- Claim C5: an out-of-range temperature, a preset whose lowercased form
is not in `SUPPORT_PRESETS`, or an hvac mode not in `SUPPORT_MODES` is
rejected: the setter issues no request and returns the state unchanged. -/
theorem C5_invalid_requests_rejected :
    (∀ (s : ThermostatState) (minT maxT t : ℚ) (resp : Option JObj),
      (t < minT ∨ t > maxT) →
      async_set_temperature s minT maxT (some t) resp = (s, none)) ∧
    (∀ (s : ThermostatState) (preset : String) (resp : Option JObj),
      pyLower preset ∉ SUPPORT_PRESETS →
      async_set_preset_mode s preset resp = (s, none)) ∧
    (∀ (s : ThermostatState) (mode : String) (resp : Option JObj),
      mode ∉ SUPPORT_MODES →
      async_set_hvac_mode s mode resp = (s, none)) := by
  refine ⟨fun s minT maxT t resp h => ?_, fun s preset resp h => ?_,
    fun s mode resp h => ?_⟩
  · simp [async_set_temperature, h]
  · simp [async_set_preset_mode, h]
  · simp [async_set_hvac_mode, async_set_hvac_mode_with, h]

/-- Witness for C5: temperature 40 °C with bounds [6, 30], preset
"party", and hvac mode "cool" are all rejected with no request. -/
theorem C5_invalid_requests_rejected_witness :
    async_set_temperature sPrior 6 30 (some 40) none = (sPrior, none) ∧
    async_set_preset_mode sPrior "party" none = (sPrior, none) ∧
    async_set_hvac_mode sPrior "cool" none = (sPrior, none) :=
  ⟨C5_invalid_requests_rejected.1 sPrior 6 30 40 none (Or.inr (by decide)),
   C5_invalid_requests_rejected.2.1 sPrior "party" none (by decide),
   C5_invalid_requests_rejected.2.2 sPrior "cool" none (by decide)⟩

/-- Claim C8 (counterexample): a configured `min_temp` of 40 °C is kept
as the effective minimum, which lies outside the hard limits [6, 30],
refuting that no effective bound lies outside those limits. -/
theorem C8_counterexample :
    effective_min_temp 40 = 40 ∧ ¬ (effective_min_temp 40 ≤ DEFAULT_MAX_TEMP) := by
  decide

/-- Claim C8 (amended): the effective minimum is never below 6 °C (a
configured value below 6 is replaced by 6) and the effective maximum is
never above 30 °C (a configured value above 30 is replaced by 30); but
clamping is one-sided, so an effective bound can still lie outside
[6, 30] on the other side. -/
theorem C8_one_sided_clamping :
    ∀ cmin cmax : ℚ,
      DEFAULT_MIN_TEMP ≤ effective_min_temp cmin ∧
      effective_max_temp cmax ≤ DEFAULT_MAX_TEMP ∧
      (cmin < DEFAULT_MIN_TEMP → effective_min_temp cmin = DEFAULT_MIN_TEMP) ∧
      (DEFAULT_MAX_TEMP < cmax → effective_max_temp cmax = DEFAULT_MAX_TEMP) := by
  intro cmin cmax
  refine ⟨?_, ?_, fun h => ?_, fun h => ?_⟩ <;>
    simp only [effective_min_temp, effective_max_temp] <;>
    split_ifs with hc <;> first | rfl | linarith

/-- Witness for C8 (amended): configured bounds (4, 40) give effective
bounds (6, 30). -/
theorem C8_one_sided_clamping_witness :
    DEFAULT_MIN_TEMP ≤ effective_min_temp 4 ∧
    effective_max_temp 40 ≤ DEFAULT_MAX_TEMP ∧
    effective_min_temp 4 = DEFAULT_MIN_TEMP ∧
    effective_max_temp 40 = DEFAULT_MAX_TEMP :=
  ⟨(C8_one_sided_clamping 4 40).1, (C8_one_sided_clamping 4 40).2.1,
   (C8_one_sided_clamping 4 40).2.2.1 (by decide),
   (C8_one_sided_clamping 4 40).2.2.2 (by decide)⟩

/-- Claim C3 (counterexample): for the in-range temperature
t = 18.756 °C, the issued `Setpoint` is `int(t * 100) = 1875`, while
rounding t * 100 = 1875.6 to the nearest integer gives 1876. -/
theorem C3_counterexample :
    (6 : ℚ) ≤ 4689 / 250 ∧ (4689 / 250 : ℚ) ≤ 30 ∧
    (async_set_temperature initState 6 30 (some (4689 / 250)) none).2 =
      some ⟨"setSetpoint", [("Setpoint", 1875)]⟩ ∧
    round ((4689 / 250 : ℚ) * 100) = 1876 := by
  refine ⟨by norm_num, by norm_num, ?_, by norm_num [round_eq]⟩
  norm_num [async_set_temperature, pyTrunc]

/-- Claim C3 (amended): for every in-range temperature t, the issued
`setSetpoint` request carries `Setpoint = int(t * 100)`, the truncation
of t * 100 toward zero (equal to the floor for the nonnegative in-range
temperatures), which can fall short of rounding to the nearest integer. -/
theorem C3_setpoint_is_truncated :
    ∀ (s : ThermostatState) (minT maxT t : ℚ) (resp : Option JObj),
      ¬ (t < minT ∨ t > maxT) →
      (async_set_temperature s minT maxT (some t) resp).2 =
        some ⟨"setSetpoint", [("Setpoint", pyTrunc (t * 100))]⟩ ∧
      (0 ≤ t → pyTrunc (t * 100) = ⌊t * 100⌋) := by
  intro s minT maxT t resp h
  constructor
  · simp [async_set_temperature, h]
  · intro ht
    have : (0 : ℚ) ≤ t * 100 := by positivity
    simp [pyTrunc, this]

/-- Witness for C3 (amended): at t = 20 °C the request carries
`Setpoint = 2000`. -/
theorem C3_setpoint_is_truncated_witness :
    (async_set_temperature initState 6 30 (some 20) none).2 =
      some ⟨"setSetpoint", [("Setpoint", pyTrunc (20 * 100))]⟩ ∧
    pyTrunc ((20 : ℚ) * 100) = 2000 :=
  ⟨(C3_setpoint_is_truncated initState 6 30 20 none (by decide)).1,
   by norm_num [pyTrunc]⟩

/-- Claim C9: encoding an in-range temperature t as the integer
`Setpoint` value and decoding it the way the poll decoder does (dividing
by 100) reproduces t to within 0.01 °C. -/
theorem C9_codec_round_trip :
    ∀ t : ℚ, 6 ≤ t → t ≤ 30 → |t - decodeTemp (pyTrunc (t * 100))| ≤ 1 / 100 := by
  intro t h6 _h30
  have h0 : (0 : ℚ) ≤ t * 100 := by linarith
  have htr : pyTrunc (t * 100) = ⌊t * 100⌋ := by simp [pyTrunc, h0]
  have hf1 : ((⌊t * 100⌋ : ℤ) : ℚ) ≤ t * 100 := Int.floor_le _
  have hf2 : t * 100 < (⌊t * 100⌋ : ℤ) + 1 := Int.lt_floor_add_one _
  rw [htr, decodeTemp, abs_le]
  constructor <;> linarith

/-- Witness for C9: t = 20 °C round-trips exactly. -/
theorem C9_codec_round_trip_witness :
    (6 : ℚ) ≤ 20 ∧ (20 : ℚ) ≤ 30 ∧
    |(20 : ℚ) - decodeTemp (pyTrunc (20 * 100))| ≤ 1 / 100 :=
  ⟨by norm_num, by norm_num, C9_codec_round_trip 20 (by norm_num) (by norm_num)⟩

/-- Claim C4 (counterexample): with the shipped
`SUPPORT_MODES = [heat, auto]`, setting hvac mode to "off" is rejected
before any request: no `changeSchemeState` request is issued. -/
theorem C4_counterexample :
    (async_set_hvac_mode initState HVAC_MODE_OFF none).2 = none ∧
    (async_set_hvac_mode initState HVAC_MODE_OFF none).2 ≠
      some ⟨"changeSchemeState", [("state", 8), ("temperatureState", 4)]⟩ := by
  decide

/-- Claim C4 (amended): "off" is not in the shipped `SUPPORT_MODES`, so
the call is rejected with no request and unchanged state; the setter's
"off" branch — reachable only when "off" is included in the
supported-modes list — issues `changeSchemeState` with `state=8` and
`temperatureState=4`. -/
theorem C4_off_branch_unreachable :
    ∀ (s : ThermostatState) (resp : Option JObj),
      async_set_hvac_mode s HVAC_MODE_OFF resp = (s, none) ∧
      (async_set_hvac_mode_with (SUPPORT_MODES ++ [HVAC_MODE_OFF]) s HVAC_MODE_OFF resp).2 =
        some ⟨"changeSchemeState", [("state", 8), ("temperatureState", 4)]⟩ := by
  intro s resp
  constructor
  · simp [async_set_hvac_mode, async_set_hvac_mode_with, SUPPORT_MODES,
      HVAC_MODE_OFF, HVAC_MODE_HEAT, HVAC_MODE_AUTO]
  · simp [async_set_hvac_mode_with, SUPPORT_MODES,
      HVAC_MODE_OFF, HVAC_MODE_HEAT, HVAC_MODE_AUTO]

/-- Claim C1 (counterexample): from a prior target temperature of 15 °C,
setting the in-range temperature 20 °C while `do_api_request` returns
`None` still overwrites the stored target temperature with 20 °C instead
of keeping the prior value. -/
theorem C1_counterexample :
    (6 : ℚ) ≤ 20 ∧ (20 : ℚ) ≤ 30 ∧ sPrior.current_setpoint = some 15 ∧
    (async_set_temperature sPrior 6 30 (some 20) none).1.current_setpoint = some 20 ∧
    (async_set_temperature sPrior 6 30 (some 20) none).1.current_setpoint ≠
      sPrior.current_setpoint := by
  decide

/-- Claim C1 (amended): once validation passes, the stored target
temperature is set to the requested value unconditionally — whether or
not `do_api_request` returned `None`, which lands only in `self._data`;
the preset and hvac setters never touch the decoded state fields at all,
only `self._data`. -/
theorem C1_optimistic_update_unconditional :
    ∀ (s : ThermostatState) (minT maxT t : ℚ) (resp : Option JObj),
      ¬ (t < minT ∨ t > maxT) →
      (async_set_temperature s minT maxT (some t) resp).1.current_setpoint = some t ∧
      (async_set_temperature s minT maxT (some t) resp).1.data = resp ∧
      (∀ (p : String) (r2 : Option JObj),
        (async_set_preset_mode s p r2).1.current_setpoint = s.current_setpoint ∧
        (async_set_preset_mode s p r2).1.active_state = s.active_state ∧
        (async_set_preset_mode s p r2).1.hvac_mode = s.hvac_mode) ∧
      (∀ (m : String) (r2 : Option JObj),
        (async_set_hvac_mode s m r2).1.current_setpoint = s.current_setpoint ∧
        (async_set_hvac_mode s m r2).1.active_state = s.active_state ∧
        (async_set_hvac_mode s m r2).1.hvac_mode = s.hvac_mode) := by
  intro s minT maxT t resp h
  refine ⟨?_, ?_, fun p r2 => ?_, fun m r2 => ?_⟩
  · simp [async_set_temperature, h]
  · simp [async_set_temperature, h]
  · unfold async_set_preset_mode
    split_ifs <;> simp
  · unfold async_set_hvac_mode async_set_hvac_mode_with
    split_ifs <;> simp

/-- Witness for C1 (amended): concrete instance with a `None` response. -/
theorem C1_optimistic_update_unconditional_witness :
    (async_set_temperature sPrior 6 30 (some 20) none).1.current_setpoint = some 20 ∧
    (async_set_temperature sPrior 6 30 (some 20) none).1.data = none ∧
    (async_set_preset_mode sPrior "away" none).1.current_setpoint =
      sPrior.current_setpoint :=
  ⟨(C1_optimistic_update_unconditional sPrior 6 30 20 none (by decide)).1,
   (C1_optimistic_update_unconditional sPrior 6 30 20 none (by decide)).2.1,
   ((C1_optimistic_update_unconditional sPrior 6 30 20 none (by decide)).2.2.1
     "away" none).1⟩

/-- Claim C2 (counterexample): a truthy poll response whose
`activeState` parses but whose `burnerInfo` is non-numeric makes
`async_update` raise (a `TypeError` escapes) after having already
overwritten `self._active_state`, so neither "fields keep their prior
values" nor "no exception propagates" holds. -/
theorem C2_counterexample :
    (async_update sPrior (some [("activeState", JVal.num 7), ("burnerInfo", JVal.other)])).2
      ≠ none ∧
    (async_update sPrior (some [("activeState", JVal.num 7), ("burnerInfo", JVal.other)])).1.active_state
      ≠ sPrior.active_state := by
  decide

/-- Claim C2 (amended): when the poll response is absent (`None`: a
connection error, timeout or caught parse failure) or falsy (an empty
mapping), every previously decoded field keeps its prior value and no
exception propagates; a truthy mapping that is missing a field or holds
a non-numeric field instead raises to the caller. -/
theorem C2_absent_response_keeps_state :
    ∀ (s : ThermostatState) (resp : Option JObj),
      truthy resp = false →
      (async_update s resp).2 = none ∧
      (async_update s resp).1.active_state = s.active_state ∧
      (async_update s resp).1.burner_info = s.burner_info ∧
      (async_update s resp).1.modulation_level = s.modulation_level ∧
      (async_update s resp).1.current_setpoint = s.current_setpoint ∧
      (async_update s resp).1.current_temperature = s.current_temperature ∧
      (async_update s resp).1.ot_comm_error = s.ot_comm_error ∧
      (async_update s resp).1.program_state = s.program_state ∧
      (async_update s resp).1.hvac_mode = s.hvac_mode := by
  intro s resp h
  unfold async_update
  rw [h]
  cases resp <;> simp

/-- Witness for C2 (amended): a `None` response leaves the prior decoded
state intact with no exception. -/
theorem C2_absent_response_keeps_state_witness :
    (async_update sPrior none).2 = none ∧
    (async_update sPrior none).1.active_state = sPrior.active_state ∧
    (async_update sPrior none).1.current_setpoint = sPrior.current_setpoint :=
  ⟨(C2_absent_response_keeps_state sPrior none rfl).1,
   (C2_absent_response_keeps_state sPrior none rfl).2.1,
   (C2_absent_response_keeps_state sPrior none rfl).2.2.2.2.1⟩

/-- Claim C6: setting hvac mode to heat while `activeState == 4` issues
`changeSchemeState` with `state=0` and `temperatureState=1`; heat
otherwise issues `state=0` with no `temperatureState`; auto issues
`state=1`. -/
theorem C6_hvac_heat_auto_requests :
    ∀ (s : ThermostatState) (resp : Option JObj),
      (s.active_state = some 4 →
        (async_set_hvac_mode s HVAC_MODE_HEAT resp).2 =
          some ⟨"changeSchemeState", [("state", 0), ("temperatureState", 1)]⟩) ∧
      (s.active_state ≠ some 4 →
        (async_set_hvac_mode s HVAC_MODE_HEAT resp).2 =
          some ⟨"changeSchemeState", [("state", 0)]⟩) ∧
      (async_set_hvac_mode s HVAC_MODE_AUTO resp).2 =
        some ⟨"changeSchemeState", [("state", 1)]⟩ := by
  intro s resp
  have hmemH : HVAC_MODE_HEAT ∈ SUPPORT_MODES := by decide
  have hmemA : HVAC_MODE_AUTO ∈ SUPPORT_MODES := by decide
  have hne : ¬ (HVAC_MODE_AUTO = HVAC_MODE_HEAT) := by decide
  refine ⟨fun h => ?_, fun h => ?_, ?_⟩
  · simp [async_set_hvac_mode, async_set_hvac_mode_with, hmemH, h]
  · simp [async_set_hvac_mode, async_set_hvac_mode_with, hmemH, h]
  · simp [async_set_hvac_mode, async_set_hvac_mode_with, hmemA, hne]

/-- Witness for C6: concrete vacation and non-vacation states. -/
theorem C6_hvac_heat_auto_requests_witness :
    (async_set_hvac_mode sVacation HVAC_MODE_HEAT none).2 =
      some ⟨"changeSchemeState", [("state", 0), ("temperatureState", 1)]⟩ ∧
    (async_set_hvac_mode sPrior HVAC_MODE_HEAT none).2 =
      some ⟨"changeSchemeState", [("state", 0)]⟩ ∧
    (async_set_hvac_mode sPrior HVAC_MODE_AUTO none).2 =
      some ⟨"changeSchemeState", [("state", 1)]⟩ :=
  ⟨(C6_hvac_heat_auto_requests sVacation none).1 (by decide),
   (C6_hvac_heat_auto_requests sPrior none).2.1 (by decide),
   (C6_hvac_heat_auto_requests sPrior none).2.2⟩

/-- Claim C7: the `preset_mode` property maps a decoded `activeState` of
0 to comfort, 1 to home, 2 to sleep, 3 to away, 4 to eco, and any other
value to no preset. -/
theorem C7_preset_mode_mapping :
    ∀ (s : ThermostatState) (v : ℤ),
      preset_mode { s with active_state := some v } =
        (if v = 0 then some PRESET_COMFORT
         else if v = 1 then some PRESET_HOME
         else if v = 2 then some PRESET_SLEEP
         else if v = 3 then some PRESET_AWAY
         else if v = 4 then some PRESET_ECO
         else none) := by
  intro s v
  by_cases h0 : v = 0
  · subst h0; rfl
  by_cases h1 : v = 1
  · subst h1; rfl
  by_cases h2 : v = 2
  · subst h2; rfl
  by_cases h3 : v = 3
  · subst h3; rfl
  by_cases h4 : v = 4
  · subst h4; rfl
  have e0 : ((0 : ℤ) == v) = false := beq_eq_false_iff_ne.mpr fun hh => h0 hh.symm
  have e1 : ((1 : ℤ) == v) = false := beq_eq_false_iff_ne.mpr fun hh => h1 hh.symm
  have e2 : ((2 : ℤ) == v) = false := beq_eq_false_iff_ne.mpr fun hh => h2 hh.symm
  have e3 : ((3 : ℤ) == v) = false := beq_eq_false_iff_ne.mpr fun hh => h3 hh.symm
  have e4 : ((4 : ℤ) == v) = false := beq_eq_false_iff_ne.mpr fun hh => h4 hh.symm
  simp [preset_mode, valid_presets, SUPPORT_PRESETS, List.find?,
    e0, e1, e2, e3, e4, h0, h1, h2, h3, h4]

/-- Claim C10: preset-name matching is case-insensitive — the setter
accepts an input exactly when its lowercased form is in
`SUPPORT_PRESETS` and encodes the request from the lowercased name, so
"AWAY" and "away" behave identically. -/
theorem C10_preset_matching_case_insensitive :
    (∀ (s : ThermostatState) (preset : String) (resp : Option JObj),
      async_set_preset_mode s preset resp =
        (if pyLower preset ∈ SUPPORT_PRESETS
         then ({ s with data := resp }, some (presetRequest (pyLower preset)))
         else (s, none))) ∧
    (∀ (s : ThermostatState) (resp : Option JObj),
      async_set_preset_mode s "AWAY" resp = async_set_preset_mode s "away" resp) := by
  constructor
  · intro s preset resp
    by_cases h : pyLower preset ∈ SUPPORT_PRESETS
    · simp [async_set_preset_mode, presetRequest, presetPair, h]
    · simp [async_set_preset_mode, h]
  · intro s resp
    have h : pyLower "AWAY" = pyLower "away" := by decide
    unfold async_set_preset_mode
    rw [h]

end ToonClimate
